import Mathlib

/-!
# Canter transaction-resolution core: shallow embedding and verification

This file is a shallow embedding in Lean 4 of the transaction resolution and
indexing core of the Canter triplestore (package `internal/store` and its
Badger-backed index implementation), together with theorems settling the
frozen claims about it.

Modelling conventions, chosen once and used throughout:

* Go `int64` identifiers (`store.ID`) are `Int`.
* The Badger key-value store is modelled as association lists with map
  semantics (`Set` on an existing key overwrites).  Iteration order of a
  Badger prefix scan is byte-lexicographic on keys; ID components of keys are
  encoded big-endian `uint64`, so scans are modelled by sorting on
  `uint64` images of the IDs (`idKey` below).
* Go `any` values are modelled by closed inductives: `AVal` for the values an
  assertion may carry before coercion (tagged with the Go dynamic type, since
  the source branches on it) and `Val` for resolved/stored values.
* Go errors are modelled by the inductive `Err`; each constructor corresponds
  to a distinct error construction site in the source.  `errors.Join` with a
  sentinel (as in the `ErrConflict` sites) is modelled by the sentinel's
  constructor.
* Go map iteration order is not deterministic; wherever the source ranges
  over a map (`EntityData`, the tempID table, the bootstrap schema maps) the
  embedding uses association lists in program order.  No claim below depends
  on a particular iteration order.
* The asynchronous ident-cache preload spawned by `NewConnection` is modelled
  as not yet having fired; the source is explicitly designed so that
  correctness does not depend on the preload (cache misses fall through to
  the backend), and no claim concerns the preload itself.
* Wall-clock time (`time.Now().Unix()`) is a fixed field `now` of the
  connection; `time.Time` values are unix seconds.
* Branches of the value-coercion switch that no claim exercises and whose
  payload types have no Lean counterpart here (float32/64 arithmetic, UUID,
  ULID, RFC3339 parsing) are mapped to the explicit error `Err.unmodelled`;
  the branches that Go `panic`s on (`decimal`, `composite`, failed casts) map
  to `Err.goPanic`.
-/

set_option maxRecDepth 100000

namespace Canter

/-- `store.ID`: a signed 64-bit integer identifier. -/
abbrev ID := Int

/-- `unresolvedEntityID`: ID 0 is reserved to mean "unresolved". -/
def unresolvedEntityID : ID := 0

/-! ## System ident ID constants (`const` block of the store package).

The Go `iota` runs through the whole block, so the `IDType*` constants start
at `-500 - 11`. -/

def IDID : ID := -1
def IDIdent : ID := -2
def IDType : ID := -3
def IDCompositeComponents : ID := -4
def IDCardinality : ID := -5
def IDUnique : ID := -6
def IDIndexed : ID := -7
def IDDoc : ID := -8
def IDTxCommitTime : ID := -9
def IDCardinalityOne : ID := -10
def IDCardinalityMany : ID := -11
def IDTypeString : ID := -511
def IDTypeBoolean : ID := -512
def IDTypeInt64 : ID := -513
def IDTypeInt32 : ID := -514
def IDTypeInt16 : ID := -515
def IDTypeInt8 : ID := -516
def IDTypeFloat64 : ID := -517
def IDTypeFloat32 : ID := -518
def IDTypeDecimal : ID := -519
def IDTypeTimestamp : ID := -520
def IDTypeDate : ID := -521
def IDTypeRef : ID := -522
def IDTypeBinary : ID := -523
def IDTypeUUID : ID := -524
def IDTypeULID : ID := -525
def IDTypeComposite : ID := -526

/-! ## Assertion modes (`AssertMode`, a Go `uint8`). -/

def AssertModeInvalid : Nat := 0
def AssertModeAddition : Nat := 1
def AssertModeRetraction : Nat := 2
def AssertModeRedaction : Nat := 3

/-- The construction-validation errors produced by the guards of
`Assertion.checkAndSetErr` (`guardMode`, `guardEntityID`, `guardAttribute`;
`guardValue` always returns nil). -/
inductive GuardErr where
  /-- `guardMode`: "invalid mode for assertion". -/
  | invalidMode : GuardErr
  /-- `guardEntityID`: "invalid type for entityID". -/
  | invalidEntityID : GuardErr
  /-- `guardAttribute`: "invalid type for attribute". -/
  | invalidAttribute : GuardErr
deriving DecidableEq, Repr

/-- Errors of the store package.  Each constructor corresponds to one error
construction site in the Go source; sentinel errors that call sites test with
`errors.Is` (`ErrConflict`, `ErrNoSuchIdent`, `ErrNoSuchEntity`,
`ErrPropertyNotFound`) keep their identity as bare constructors. -/
inductive Err where
  /-- `ErrNoSuchIdent`. -/
  | noSuchIdent : Err
  /-- `ErrNoSuchEntity`. -/
  | noSuchEntity : Err
  /-- `ErrConflict` (always surfaced via `errors.Join(fmt.Errorf(...), ErrConflict)`). -/
  | conflict : Err
  /-- `ErrPropertyNotFound`. -/
  | propertyNotFound : Err
  /-- `errors.New` for a reserved `"db/"` name in `ResolveIdents`. -/
  | reservedNamespace : Err
  /-- `ResolveIdents` default case: value type cannot resolve to an ident. -/
  | cannotResolveToIdent : Err
  /-- `Connection.Assert`: "invalid assertions: ..." wrapping the joined
  per-assertion validation errors, in order (each element is the joined
  guard errors of one invalid assertion). -/
  | invalidAssertions (errs : List (List GuardErr)) : Err
  /-- "attribute entity %d is not a schema entity". -/
  | notSchemaEntity (attr : ID) : Err
  /-- "value for TYPE attribute NAME is not assignable to ...". -/
  | notAssignable (typeName : String) (attrName : String) : Err
  /-- "value for TYPE attribute NAME is out of range". -/
  | outOfRange (typeName : String) (attrName : String) : Err
  /-- "value for ref attribute NAME must resolve to an ID". -/
  | refNotResolvable (attrName : String) : Err
  /-- "value for db/id must resolve to an ID". -/
  | notAnID : Err
  /-- "no entity found with db/id %d". -/
  | noEntityWithID (id : ID) : Err
  /-- "attribute %q is not unique" (from `Lookup.Resolve`). -/
  | notUnique (attrName : String) : Err
  /-- Badger `ErrKeyNotFound` (surfaced by `typeFor`). -/
  | keyNotFound : Err
  /-- `ScanEAVT` decode switch default: "unsupported value type for attribute". -/
  | unsupportedValueType (attr : ID) : Err
  /-- A gob decode whose wire type does not match the target. -/
  | decodeMismatch : Err
  /-- A gob encode failure (nil or unexported-field value). -/
  | encoding : Err
  /-- A Go `panic` site (including failed type assertions). -/
  | goPanic (msg : String) : Err
  /-- A coercion branch outside the scope of every claim (float32/64, UUID,
  ULID, RFC3339/date string parsing), left unmodelled. -/
  | unmodelled (msg : String) : Err
deriving DecidableEq, Repr

/-- Resolved / stored values: the Go dynamic types that can sit in a fact's
value position after coercion (plus the raw kinds bootstrap writes).  Distinct
constructors correspond to distinct Go dynamic types, which gob encoding
keeps distinct. -/
inductive Val where
  | id (i : ID)
  | str (s : String)
  | bool (b : Bool)
  | int64 (n : Int)
  | int32 (n : Int)
  | int16 (n : Int)
  | int8 (n : Int)
  | uint64 (n : Int)
  | time (unixSec : Int)
  | bytes (bs : List Nat)
deriving DecidableEq, Repr

/-- `store.Ident`: a resolved (ID, Name) pair. -/
structure Ident where
  id : ID
  name : String
deriving DecidableEq, Repr

/-- `NullIdent`: the zero `Ident` value. -/
def NullIdent : Ident := ⟨0, ""⟩

/-- Values an assertion can carry before coercion, tagged with their Go
dynamic type (the coercion switch in `Connection.Assert` branches on the
dynamic type, so the tag is semantically significant). -/
inductive AVal where
  | id (i : ID)
  | tempid (symbol : String)
  | ident (id : ID) (name : String)
  /-- A `store.Lookup{AttributeName, Value}` resolver in value position. -/
  | lookup (attrName : String) (value : Val)
  | str (s : String)
  | bool (b : Bool)
  | int64 (n : Int)
  | uint64 (n : Int)
  | int (n : Int)
  | uint (n : Int)
  | int32 (n : Int)
  | uint32 (n : Int)
  | int16 (n : Int)
  | uint16 (n : Int)
  | int8 (n : Int)
  | uint8 (n : Int)
  | time (unixSec : Int)
  | bytes (bs : List Nat)
  /-- Any other Go value (fails `guardEntityID`/`guardAttribute`/ident
  resolution). -/
  | invalid (tag : String)
deriving DecidableEq, Repr

/-- An `EntityData` entry value: `EntityData.Assertions` checks with
reflection whether the value is a Go slice/array and fans a multi-valued
entry out into one assertion per element. -/
inductive EDVal where
  | single (v : AVal)
  | multi (vs : List AVal)
deriving DecidableEq, Repr

/-- Entity-ID reference of an unresolved assertion (Go `any`; `guardEntityID`
admits `string`, `ID` and `tempID`). -/
inductive ERef where
  | id (i : ID)
  | tempid (symbol : String)
  | str (name : String)
  | invalid (tag : String)
deriving DecidableEq, Repr

/-- Attribute reference of an unresolved assertion (Go `any`;
`guardAttribute` admits `string`, `Ident` and `ID`). -/
inductive ARef where
  | str (name : String)
  | ident (id : ID) (name : String)
  | id (i : ID)
  | invalid (tag : String)
deriving DecidableEq, Repr

/-- `store.Fact`.  The struct's declaration file is not among the provided
sources; its fields `EntityID`, `Attribute`, `Value`, `Tx` are reconstructed
from every construction site (`connection.go`, the badger scans); the Go
field `Attribute` is rendered `attr` (`attribute` is a Lean keyword).  `Value`
is a Go `any` that the scans may leave `nil`, hence `Option Val`. -/
structure Fact where
  entityID : ID
  attr : ID
  value : Option Val
  tx : ID
deriving DecidableEq, Repr

/-- `store.ResolvedAssertion`: a `Fact` plus its assertion mode. -/
structure ResolvedAssertion where
  fact : Fact
  mode : Nat
deriving DecidableEq, Repr

/-- `store.Assertion`: an unresolved assertion; `err` is set by
`checkAndSetErr` at construction. -/
structure Assertion where
  entityID : ERef
  attr : ARef
  value : AVal
  mode : Nat
  err : Option (List GuardErr)
deriving DecidableEq, Repr

/-! ## Association-list helpers (Badger tables and Go maps). -/

/-- Lookup in an association list. -/
def alGet {κ ν : Type} [DecidableEq κ] : List (κ × ν) → κ → Option ν
  | [], _ => none
  | (k', v') :: rest, k => if k' = k then some v' else alGet rest k

/-- Map-semantics insert: replace the binding in place if the key is present,
else append (matching Badger `Set` / Go map assignment; insertion order of
fresh keys is preserved, which models Go-map insertion order where the source
iterates such a map). -/
def alPut {κ ν : Type} [DecidableEq κ] : List (κ × ν) → κ → ν → List (κ × ν)
  | [], k, v => [(k, v)]
  | (k', v') :: rest, k, v =>
    if k' = k then (k, v) :: rest else (k', v') :: alPut rest k v

/-- Insert into a list acting as a set (the Idents covering index, whose
keys are (id, name) pairs with empty values). -/
def setInsert {α : Type} [DecidableEq α] (l : List α) (x : α) : List α :=
  if x ∈ l then l else l ++ [x]

/-- The `uint64` image of an ID, as used in big-endian index keys:
lexicographic byte order of keys equals numeric order of these images
(negative IDs sort after positive ones). -/
def idKey (i : ID) : Nat := (i % (2 ^ 64 : Int)).toNat

/-- Insertion into a list sorted by a `Nat` key (index keys are unique, so
stability is irrelevant). -/
def insertByKey {α : Type} (f : α → Nat) (x : α) : List α → List α
  | [] => [x]
  | y :: ys => if f x ≤ f y then x :: y :: ys else y :: insertByKey f x ys

/-- Sort by a `Nat` key: the byte order in which a Badger prefix scan visits
matching keys. -/
def sortByKey {α : Type} (f : α → Nat) (l : List α) : List α :=
  l.foldr (insertByKey f) []

/-! ## The Badger-backed store (`internal/store/badger`).

One `badgerStore` value implements `IdentManager`, `IDManager` and `Indexer`.
Its tables live under single-byte prefixes in one keyspace; since the prefixes
separate the tables completely, each table is modelled as its own map.
 -/

/-- The Badger store state.  `eavt` maps `(E, A)` to `(mode, tx, value)`
(the EAVT key contains only entity and attribute — `writeEAVT` builds a
17-byte key — so a later write to the same `(E, A)` overwrites the earlier
value).  `avet` maps `(A, gob(V))` to `(mode, tx, E)`; gob encodings of
distinct values of the stored kinds are distinct and prefix-free, so the key
is modelled as `(A, V)`.  `idents` is the covering `(id, name)` sorted set;
`identIDByName` maps names to IDs.  `idSeq` is the monotonic Badger sequence
backing `NextID`, whose first ever `Next()` yields 0. -/
structure BadgerStore where
  eavt : List ((ID × ID) × (Nat × ID × Val))
  avet : List ((ID × Val) × (Nat × ID × ID))
  idents : List (ID × String)
  identIDByName : List (String × ID)
  idSeq : Nat
deriving DecidableEq, Repr

/-- The empty store backing a fresh in-memory connection. -/
def emptyStore : BadgerStore := ⟨[], [], [], [], 0⟩

/-- `badgerStore.NextID`: return the next value of the monotonic sequence
(0 on the very first call of a fresh store). -/
def nextID (sto : BadgerStore) : BadgerStore × ID :=
  ({ sto with idSeq := sto.idSeq + 1 }, (sto.idSeq : Int))

/-- `badgerStore.StoreIdent`: set the covering-index entry and the
name-to-ID entry (no already-exists check is performed by this backend). -/
def storeIdent (sto : BadgerStore) (ident : Ident) : BadgerStore :=
  { sto with
    idents := setInsert sto.idents (ident.id, ident.name)
    identIDByName := alPut sto.identIDByName ident.name ident.id }

/-- `badgerStore.LookupIdentIDs`: IDs for all names, failing the whole batch
with `ErrNoSuchIdent` at the first missing name. -/
def lookupIdentIDs (sto : BadgerStore) : List String → Except Err (List ID)
  | [] => .ok []
  | name :: rest =>
    match alGet sto.identIDByName name with
    | none => .error .noSuchIdent
    | some id =>
      match lookupIdentIDs sto rest with
      | .error e => .error e
      | .ok ids => .ok (id :: ids)

/-- `badgerStore.LookupIdentNames`: names for all IDs via a prefix seek on
the covering index, failing with `ErrNoSuchIdent` at the first missing ID. -/
def lookupIdentNames (sto : BadgerStore) : List ID → Except Err (List String)
  | [] => .ok []
  | id :: rest =>
    match sto.idents.find? (fun p => p.1 = id) with
    | none => .error .noSuchIdent
    | some p =>
      match lookupIdentNames sto rest with
      | .error e => .error e
      | .ok names => .ok (p.2 :: names)

/-- `badgerStore.typeFor`: read `EAVT[attr, db/type]`, skip the mode byte and
tx, and gob-decode the payload into an `int64` (an `ID` payload decodes; any
other stored kind is a wire-type mismatch). -/
def typeFor (sto : BadgerStore) (attr : ID) : Except Err ID :=
  match alGet sto.eavt (attr, IDType) with
  | none => .error .keyNotFound
  | some (_, _, v) =>
    match v with
    | .id t => .ok t
    | _ => .error .decodeMismatch

/-- The per-entry decode step of `badgerStore.ScanEAVT`.  The entry's fact is
seeded with the entity and attribute from the key; if the stored mode byte is
not `Addition` the value closure returns early — leaving `Tx` and `Value`
unset (zero / nil) — but the caller appends the fact regardless, so the
output still contains it. -/
def scanEAVTEntry (sto : BadgerStore) (entityID : ID) (attr : ID)
    (entry : Nat × ID × Val) : Except Err Fact :=
  let fct : Fact := { entityID := entityID, attr := attr, value := none, tx := 0 }
  if entry.1 ≠ AssertModeAddition then
    .ok fct
  else
    match typeFor sto attr with
    | .error e => .error e
    | .ok attrType =>
      let decoded : Except Err Val :=
        if attrType = IDTypeRef then
          match entry.2.2 with
          | .id r => .ok (.id r)
          | _ => .error .decodeMismatch
        else if attrType = IDTypeString then
          match entry.2.2 with
          | .str s => .ok (.str s)
          | _ => .error .decodeMismatch
        else if attrType = IDTypeInt64 then
          match entry.2.2 with
          | .int64 n => .ok (.int64 n)
          | _ => .error .decodeMismatch
        else if attrType = IDTypeFloat64 then
          .error (.unmodelled "float64 decode")
        else if attrType = IDTypeBoolean then
          match entry.2.2 with
          | .bool b => .ok (.bool b)
          | _ => .error .decodeMismatch
        else if attrType = IDTypeBinary then
          .ok entry.2.2
        else
          .error (.unsupportedValueType attr)
      match decoded with
      | .error e => .error e
      | .ok v => .ok { fct with value := some v, tx := entry.2.1 }

/-- Fold the scan entries of `ScanEAVT`, appending one fact per visited key
(also for skipped-decode, non-Addition entries). -/
def scanEAVTList (sto : BadgerStore) (entityID : ID) :
    List ((ID × ID) × (Nat × ID × Val)) → Except Err (List Fact)
  | [] => .ok []
  | (k, entry) :: rest =>
    match scanEAVTEntry sto entityID k.2 entry with
    | .error e => .error e
    | .ok fct =>
      match scanEAVTList sto entityID rest with
      | .error e => .error e
      | .ok fcts => .ok (fct :: fcts)

/-- `badgerStore.ScanEAVT`: prefix scan on `E` (and `A` when given), visiting
keys in big-endian `uint64` order of the attribute. -/
def scanEAVT (sto : BadgerStore) (entityID : ID) (attr : Option ID) :
    Except Err (List Fact) :=
  let entries := sto.eavt.filter fun p =>
    p.1.1 = entityID && (match attr with | none => true | some a => p.1.2 = a)
  let sorted := sortByKey (fun p => idKey p.1.2) entries
  scanEAVTList sto entityID sorted

/-- `badgerStore.ScanAVET`: point scan on the exact `(A, gob(V))` key.  As in
`ScanEAVT`, an entry whose mode byte is not `Addition` still contributes a
fact — seeded with the attribute and value from the arguments but with
`EntityID` and `Tx` left zero. -/
def scanAVET (sto : BadgerStore) (attr : ID) (val : Val) :
    Except Err (List Fact) :=
  let entries := sto.avet.filter fun p => p.1 = (attr, val)
  .ok (entries.map fun p =>
    if p.2.1 ≠ AssertModeAddition then
      { entityID := 0, attr := attr, value := some val, tx := 0 }
    else
      { entityID := p.2.2.2, attr := attr, value := some val, tx := p.2.2.1 })

/-- `writeEAVT`: set `EAVT[(E, A)] := mode ‖ tx ‖ gob(V)`.  A nil value does
not gob-encode. -/
def writeEAVT (sto : BadgerStore) (ra : ResolvedAssertion) :
    Except Err BadgerStore :=
  match ra.fact.value with
  | none => .error .encoding
  | some v =>
    .ok { sto with
          eavt := alPut sto.eavt (ra.fact.entityID, ra.fact.attr)
            (ra.mode, ra.fact.tx, v) }

/-- `writeAVET`: set `AVET[(A, gob(V))] := mode ‖ tx ‖ E`. -/
def writeAVET (sto : BadgerStore) (ra : ResolvedAssertion) :
    Except Err BadgerStore :=
  match ra.fact.value with
  | none => .error .encoding
  | some v =>
    .ok { sto with
          avet := alPut sto.avet (ra.fact.attr, v)
            (ra.mode, ra.fact.tx, ra.fact.entityID) }

/-- The body of `badgerStore.Write`: write each assertion to EAVT and AVET in
order (AEVT and VAET are not written by this backend). -/
def writeAll (sto : BadgerStore) : List ResolvedAssertion → Except Err BadgerStore
  | [] => .ok sto
  | ra :: rest =>
    match writeEAVT sto ra with
    | .error e => .error e
    | .ok sto' =>
      match writeAVET sto' ra with
      | .error e => .error e
      | .ok sto'' => writeAll sto'' rest

/-- `badgerStore.Write`: the writes run inside one Badger update transaction,
so an error leaves the store unchanged. -/
def indexerWrite (sto : BadgerStore) (ras : List ResolvedAssertion) :
    Except Err BadgerStore :=
  match writeAll sto ras with
  | .error e => .error e
  | .ok sto' => .ok sto'

/-! ## The ident cache (`internal/store/ident.go`). -/

/-- `identCache`: a slice of idents plus two index maps from ID and name to
the position in the slice (the mutex is irrelevant in this single-schedule
embedding). -/
structure IdentCache where
  idents : List Ident
  identIdxID : List (ID × Nat)
  identIdxName : List (String × Nat)
deriving DecidableEq, Repr

/-- The zero-value ident cache before preloading. -/
def emptyIdentCache : IdentCache := ⟨[], [], []⟩

/-- One insertion step of `identCache.store`. -/
def identCacheInsert (c : IdentCache) (ident : Ident) : IdentCache :=
  { idents := c.idents ++ [ident]
    identIdxID := alPut c.identIdxID ident.id c.idents.length
    identIdxName := alPut c.identIdxName ident.name c.idents.length }

/-- `identCache.store`: insert the idents in order, but RETURN from the whole
method as soon as an ident's ID is already a key of `identIdxID` — that ident
and every later one in the batch are dropped. -/
def identCacheStore (c : IdentCache) : List Ident → IdentCache
  | [] => c
  | ident :: rest =>
    match alGet c.identIdxID ident.id with
    | some _ => c
    | none => identCacheStore (identCacheInsert c ident) rest

/-- `identCache.lookupByID`. -/
def lookupByID (c : IdentCache) (id : ID) : Option Ident :=
  match alGet c.identIdxID id with
  | none => none
  | some idx => c.idents.get? idx

/-- `identCache.lookupByName`. -/
def lookupByName (c : IdentCache) (name : String) : Option Ident :=
  match alGet c.identIdxName name with
  | none => none
  | some idx => c.idents.get? idx

/-- The fixed table of system idents preloaded by `newIdentCache`, in source
order. -/
def systemIdents : List Ident :=
  [ ⟨IDID, "db/id"⟩,
    ⟨IDIdent, "db/ident"⟩,
    ⟨IDType, "db/type"⟩,
    ⟨IDCompositeComponents, "db/compositeComponents"⟩,
    ⟨IDCardinality, "db/cardinality"⟩,
    ⟨IDUnique, "db/unique"⟩,
    ⟨IDIndexed, "db/indexed"⟩,
    ⟨IDDoc, "db/doc"⟩,
    ⟨IDTxCommitTime, "db.tx/commitTime"⟩,
    ⟨IDCardinalityOne, "db.cardinality/one"⟩,
    ⟨IDCardinalityMany, "db.cardinality/many"⟩,
    ⟨IDTypeString, "db.type/string"⟩,
    ⟨IDTypeBoolean, "db.type/boolean"⟩,
    ⟨IDTypeInt64, "db.type/int64"⟩,
    ⟨IDTypeInt32, "db.type/int32"⟩,
    ⟨IDTypeInt16, "db.type/int16"⟩,
    ⟨IDTypeInt8, "db.type/int8"⟩,
    ⟨IDTypeFloat64, "db.type/float64"⟩,
    ⟨IDTypeFloat32, "db.type/float32"⟩,
    ⟨IDTypeDecimal, "db.type/decimal"⟩,
    ⟨IDTypeTimestamp, "db.type/timestamp"⟩,
    ⟨IDTypeDate, "db.type/date"⟩,
    ⟨IDTypeRef, "db.type/ref"⟩,
    ⟨IDTypeBinary, "db.type/binary"⟩,
    ⟨IDTypeUUID, "db.type/uuid"⟩,
    ⟨IDTypeULID, "db.type/ulid"⟩,
    ⟨IDTypeComposite, "db.type/composite"⟩ ]

/-- `newIdentCache`: a fresh cache seeded with the system idents. -/
def newIdentCache : IdentCache := identCacheStore emptyIdentCache systemIdents

/-! ## The connection (`internal/store/connection.go`). -/

/-- The cardinality tag of an attribute as recorded in an entity snapshot:
a single value (possibly Go `nil` for a skipped decode) or the ordered list
built for a `db.cardinality/many` attribute. -/
inductive EValue where
  | scalar (v : Option Val)
  | listOf (vs : List (Option Val))
deriving DecidableEq, Repr

/-- `store.Entity`: an entity snapshot. -/
structure Entity where
  eid : ID
  basisID : ID
  state : List (ID × EValue)
deriving DecidableEq, Repr

/-- `store.Connection`.  The `IdentManager`, `IDManager` and `Indexer` of the
config are all the one `badgerStore` (`sto`).  `gensym` supplies the opaque
symbols of `TempID()` (ULIDs in the source — what matters is that each call
yields a fresh symbol); `now` is the wall clock. -/
structure Connection where
  identCache : IdentCache
  schemaEntityCache : List (ID × Entity)
  sto : BadgerStore
  gensym : Nat
  now : Int
deriving DecidableEq, Repr

/-- `NewConnection` on a fresh in-memory Badger store (the async ident
preload has not fired; see the module conventions). -/
def newConnection (now : Int) : Connection :=
  { identCache := newIdentCache
    schemaEntityCache := []
    sto := emptyStore
    gensym := 0
    now := now }

/-- `TempID()`: allocate a fresh opaque symbol (a ULID in the source; what
matters is freshness, supplied here by the `gensym` counter). -/
def newTempID (gensym : Nat) : Nat × String :=
  (gensym + 1, "tmp" ++ toString gensym)

/-- The argument type of `Connection.ResolveIdents` (a Go `any` that may be a
resolved `Ident`, an `ID`, a `string`, or anything else — the default case). -/
inductive IdentInput where
  | ident (id : ID) (name : String)
  | id (i : ID)
  | str (s : String)
  | other (tag : String)
deriving DecidableEq, Repr

/-- Go `strings.HasPrefix`, on the character lists underlying the strings
(equivalent to byte-prefix for valid UTF-8; implemented this way so the
kernel can evaluate it). -/
def goHasPrefix (s p : String) : Bool := s.data.take p.data.length == p.data

/-- The classification pass of `Connection.ResolveIdents`: fill `out` with
cache hits, collect unresolved names and IDs with their output indexes, and
reject with a hard error any uncached name in the reserved `"db/"`
namespace. -/
def classifyIdentInputs (cache : IdentCache) :
    List IdentInput → Nat →
    Except Err (List (Nat × Ident) × List (String × Nat) × List (ID × Nat))
  | [], _ => .ok ([], [], [])
  | input :: rest, idx =>
    let step : Except Err (Option (Nat × Ident) × Option (String × Nat) × Option (ID × Nat)) :=
      match input with
      | .ident id name => .ok (some (idx, ⟨id, name⟩), none, none)
      | .id i =>
        match lookupByID cache i with
        | some ident => .ok (some (idx, ident), none, none)
        | none => .ok (none, none, some (i, idx))
      | .str s =>
        match lookupByName cache s with
        | some ident => .ok (some (idx, ident), none, none)
        | none =>
          if goHasPrefix s "db/" then .error .reservedNamespace
          else .ok (none, some (s, idx), none)
      | .other _ => .error .cannotResolveToIdent
    match step with
    | .error e => .error e
    | .ok (hit, unName, unID) =>
      match classifyIdentInputs cache rest (idx + 1) with
      | .error e => .error e
      | .ok (hits, names, ids) =>
        .ok (hit.toList ++ hits, unName.toList ++ names, unID.toList ++ ids)

/-- Write resolved idents into the output slots (`out[outIdx] = newIdent`). -/
def fillSlots (out : List Ident) : List (Nat × Ident) → List Ident
  | [] => out
  | (idx, ident) :: rest => fillSlots (out.set idx ident) rest

/-- The body of `Connection.ResolveIdents` over exactly the state it touches:
it reads the backend (`sto`) and reads/extends the ident cache, and nothing
else.  Cache hits are taken first; unresolved names are then looked up in one
backend batch and cached, then unresolved IDs likewise.  A backend miss
propagates `ErrNoSuchIdent`; this method never allocates. -/
def resolveIdentsCore (sto : BadgerStore) (cache : IdentCache)
    (inputs : List IdentInput) : IdentCache × Except Err (List Ident) :=
  match classifyIdentInputs cache inputs 0 with
  | .error e => (cache, .error e)
  | .ok (hits, unNames, unIDs) =>
    let out := fillSlots (List.replicate inputs.length NullIdent) hits
    -- Resolve unknown names.
    let nameStep : Except Err (List (Nat × Ident) × IdentCache) :=
      if unNames.isEmpty then
        .ok ([], cache)
      else
        match lookupIdentIDs sto (unNames.map Prod.fst) with
        | .error e => .error e
        | .ok ids =>
          let newIdents := (unNames.zip ids).map fun p => (⟨p.2, p.1.1⟩ : Ident)
          let slots := (unNames.zip ids).map fun p => (p.1.2, (⟨p.2, p.1.1⟩ : Ident))
          .ok (slots, identCacheStore cache newIdents)
    match nameStep with
    | .error e => (cache, .error e)
    | .ok (nameSlots, cache1) =>
      let out := fillSlots out nameSlots
      -- Resolve unknown IDs.
      let idStep : Except Err (List (Nat × Ident) × IdentCache) :=
        if unIDs.isEmpty then
          .ok ([], cache1)
        else
          match lookupIdentNames sto (unIDs.map Prod.fst) with
          | .error e => .error e
          | .ok names =>
            let newIdents := (unIDs.zip names).map fun p => (⟨p.1.1, p.2⟩ : Ident)
            let slots := (unIDs.zip names).map fun p => (p.1.2, (⟨p.1.1, p.2⟩ : Ident))
            .ok (slots, identCacheStore cache1 newIdents)
      match idStep with
      | .error e => (cache1, .error e)
      | .ok (idSlots, cache2) => (cache2, .ok (fillSlots out idSlots))

/-- `Connection.ResolveIdents`: resolve a heterogeneous batch to idents,
parallel to the input; the connection's ident cache picks up the newly
resolved pairs. -/
def resolveIdents (conn : Connection) (inputs : List IdentInput) :
    Connection × Except Err (List Ident) :=
  match resolveIdentsCore conn.sto conn.identCache inputs with
  | (cache', r) => ({ conn with identCache := cache' }, r)

/-- `store.ResolveIdent`: resolve a single argument. -/
def resolveIdent (conn : Connection) (input : IdentInput) :
    Connection × Except Err Ident :=
  match resolveIdents conn [input] with
  | (conn', .error e) => (conn', .error e)
  | (conn', .ok idents) =>
    match idents with
    | [ident] => (conn', .ok ident)
    | _ => (conn', .error (.goPanic "resolveIdents arity"))

/-! ## Entity reader (`entity.go`, `connection.go`). -/

/-- `Entity.Get`: resolve the attribute argument, then look it up in the
snapshot state; a missing key is `ErrPropertyNotFound`. -/
def entityGet (conn : Connection) (e : Entity) (attr : IdentInput) :
    Connection × Except Err EValue :=
  match resolveIdent conn attr with
  | (conn', .error e') => (conn', .error e')
  | (conn', .ok attrIdent) =>
    match alGet e.state attrIdent.id with
    | none => (conn', .error .propertyNotFound)
    | some v => (conn', .ok v)

/-- `Connection.getSchemaEntity`: the restricted schema read — an EAVT scan
whose fold stores every fact's value as a single value (no cardinality
consultation), cached by attribute ID for the connection's lifetime. -/
def getSchemaEntity (conn : Connection) (attrID : ID) :
    Connection × Except Err Entity :=
  match alGet conn.schemaEntityCache attrID with
  | some ent => (conn, .ok ent)
  | none =>
    match scanEAVT conn.sto attrID none with
    | .error e => (conn, .error e)
    | .ok facts =>
      let st := facts.foldl (fun acc fct => alPut acc fct.attr (.scalar fct.value)) []
      let ent : Entity := ⟨attrID, 0, st⟩
      ({ conn with schemaEntityCache := alPut conn.schemaEntityCache attrID ent },
        .ok ent)

/-- The fact fold of `Connection.GetEntity`: determine each attribute's
cardinality (panicking — per the source — if it cannot be fetched), append to
an ordered list for `db.cardinality/many`, overwrite for single-valued
attributes, and track the highest Tx as the basis. -/
def entityFold (conn : Connection) (ent : Entity) :
    List Fact → Connection × Except Err Entity
  | [] => (conn, .ok ent)
  | fct :: rest =>
    match getSchemaEntity conn fct.attr with
    | (conn1, .error e) => (conn1, .error e)
    | (conn1, .ok attrEntity) =>
      match entityGet conn1 attrEntity (.id IDCardinality) with
      | (conn2, .error _) =>
        (conn2, .error (.goPanic "error fetching attribute cardinality"))
      | (conn2, .ok card) =>
        let isMany : Bool :=
          match card with
          | .scalar (some (.id x)) => x = IDCardinalityMany
          | _ => false
        let stateStep : Except Err (List (ID × EValue)) :=
          if isMany then
            match alGet ent.state fct.attr with
            | none => .ok (alPut ent.state fct.attr (.listOf [fct.value]))
            | some (.listOf vs) =>
              .ok (alPut ent.state fct.attr (.listOf (vs ++ [fct.value])))
            | some (.scalar _) => .error (.goPanic "value is not a slice")
          else
            .ok (alPut ent.state fct.attr (.scalar fct.value))
        match stateStep with
        | .error e => (conn2, .error e)
        | .ok st =>
          let basis := if fct.tx > ent.basisID then fct.tx else ent.basisID
          entityFold conn2 { ent with state := st, basisID := basis } rest

/-- `Connection.GetEntity` applied to an already-resolved entity ID. -/
def getEntityByID (conn : Connection) (eid : ID) :
    Connection × Except Err Entity :=
  match scanEAVT conn.sto eid none with
  | .error e => (conn, .error e)
  | .ok facts => entityFold conn ⟨eid, 0, []⟩ facts

/-- `Lookup.Resolve`: resolve the attribute name, read its schema entity with
the full entity reader, require `db/unique = true`, then point-scan AVET and
return the first hit's entity ID (`ErrNoSuchEntity` when there is none). -/
def lookupResolve (conn : Connection) (attrName : String) (value : Val) :
    Connection × Except Err ID :=
  match resolveIdent conn (.str attrName) with
  | (c, .error e) => (c, .error e)
  | (c, .ok attr) =>
    match getEntityByID c attr.id with
    | (c1, .error e) => (c1, .error e)
    | (c1, .ok schemaEntity) =>
      let uniqueStep : Connection × Except Err Unit :=
        match entityGet c1 schemaEntity (.id IDUnique) with
        | (c2, .ok (.scalar (some (.bool true)))) => (c2, .ok ())
        | (c2, .ok (.scalar (some (.bool false)))) =>
          (c2, .error (.notUnique attrName))
        | (c2, .ok _) => (c2, .error (.goPanic "isUnique bool cast"))
        | (c2, .error .propertyNotFound) => (c2, .error (.notUnique attrName))
        | (c2, .error e) => (c2, .error e)
      match uniqueStep with
      | (c2, .error e) => (c2, .error e)
      | (c2, .ok ()) =>
        match scanAVET c2.sto attr.id value with
        | .error e => (c2, .error e)
        | .ok facts =>
          match facts with
          | [] => (c2, .error .noSuchEntity)
          | fct :: _ => (c2, .ok fct.entityID)

/-- The `store.Resolver`-capable argument shapes `Connection.GetEntity` and
value coercion accept: a concrete `ID`, a `Lookup`, or an `Ident`. -/
inductive ResolverArg where
  | id (i : ID)
  | lookup (attrName : String) (value : Val)
  | ident (id : ID) (name : String)
deriving DecidableEq, Repr

/-- Dispatch of `Resolver.Resolve`: `ID.Resolve` returns itself;
`Lookup.Resolve` as above; `Ident.Resolve` returns its ID when nonzero and
otherwise resolves its name. -/
def resolverResolve (conn : Connection) : ResolverArg → Connection × Except Err ID
  | .id i => (conn, .ok i)
  | .lookup attrName value => lookupResolve conn attrName value
  | .ident id name =>
    if id ≠ 0 then (conn, .ok id)
    else
      match resolveIdent conn (.str name) with
      | (c, .error e) => (c, .error e)
      | (c, .ok ident) => (c, .ok ident.id)

/-- `Connection.GetEntity`: resolve the argument to an ID, then materialize
the snapshot. -/
def getEntity (conn : Connection) (arg : ResolverArg) :
    Connection × Except Err Entity :=
  match resolverResolve conn arg with
  | (c, .error e) => (c, .error e)
  | (c, .ok eid) => getEntityByID c eid

/-! ## Assertion construction and validation (`transaction.go`). -/

/-- `guardMode`. -/
def guardMode (mode : Nat) : Option GuardErr :=
  if mode = AssertModeAddition ∨ mode = AssertModeRetraction ∨
      mode = AssertModeRedaction then none
  else some .invalidMode

/-- `guardEntityID`: `string`, `ID` and `tempID` are the permitted shapes. -/
def guardEntityID : ERef → Option GuardErr
  | .invalid _ => some .invalidEntityID
  | _ => none

/-- `guardAttribute`: `string`, `Ident` and `ID` are the permitted shapes. -/
def guardAttribute : ARef → Option GuardErr
  | .invalid _ => some .invalidAttribute
  | _ => none

/-- `Assertion.checkAndSetErr`: join the guard errors (in source order; nils
dropped) into the assertion's `err` field. -/
def checkAndSetErr (a : Assertion) : Assertion :=
  let errs := (guardMode a.mode).toList ++ (guardEntityID a.entityID).toList ++
    (guardAttribute a.attr).toList
  { a with err := if errs.isEmpty then none else some errs }

/-- `store.Assert`: build an Addition assertion and validate it. -/
def Assert (eid : ERef) (attr : ARef) (value : AVal) : Assertion :=
  checkAndSetErr
    { entityID := eid, attr := attr, value := value,
      mode := AssertModeAddition, err := none }

/-- `store.Retract`: build a Retraction assertion and validate it. -/
def Retract (eid : ERef) (attr : ARef) (value : AVal) : Assertion :=
  checkAndSetErr
    { entityID := eid, attr := attr, value := value,
      mode := AssertModeRetraction, err := none }

/-! ## `EntityData` (`entity.go`). -/

/-- `store.EntityData`: attribute-name-to-value records.  The Go map is
modelled as an association list in program order (map iteration order is
arbitrary; no claim depends on it). -/
abbrev EntityData := List (String × EDVal)

/-- The conversion a Go `any` value undergoes when handed to
`ResolveIdents`. -/
def avalToIdentInput : AVal → IdentInput
  | .str s => .str s
  | .ident id name => .ident id name
  | .id i => .id i
  | _ => .other "not an ident shape"

/-- `EntityData.getIdentifier` over exactly the state it touches (the ident
cache and the TempID supply; the backend is read-only here): the first
`"db/id"` entry pins the entity (a failed `identifier` cast panics); the
first `"db/ident"` entry is resolved, a fresh TempID standing in for a
not-yet-known name; otherwise a fresh TempID is allocated. -/
def getIdentifierCore (sto : BadgerStore) (cache : IdentCache) (gensym : Nat) :
    EntityData → (IdentCache × Nat) × Except Err ERef
  | [] =>
    let (g', sym) := newTempID gensym
    ((cache, g'), .ok (.tempid sym))
  | (key, v) :: rest =>
    if key = "db/id" then
      match v with
      | .single (.id i) => ((cache, gensym), .ok (.id i))
      | .single (.tempid s) => ((cache, gensym), .ok (.tempid s))
      | _ => ((cache, gensym), .error (.goPanic "db/id value is not an identifier"))
    else if key = "db/ident" then
      match v with
      | .single av =>
        match resolveIdentsCore sto cache [avalToIdentInput av] with
        | (c, .error .noSuchIdent) =>
          let (g', sym) := newTempID gensym
          ((c, g'), .ok (.tempid sym))
        | (c, .error e) => ((c, gensym), .error e)
        | (c, .ok [valIdent]) => ((c, gensym), .ok (.id valIdent.id))
        | (c, .ok _) => ((c, gensym), .error (.goPanic "resolveIdents arity"))
      | .multi _ => ((cache, gensym), .error .cannotResolveToIdent)
    else getIdentifierCore sto cache gensym rest

/-- The fan-out loop of `EntityData.Assertions`: skip `"db/id"`, split Go
slice/array values into one assertion per element, and build each assertion
with `store.Assert` (hence validated on construction). -/
def entityDataFanOut (id : ERef) : EntityData → List Assertion
  | [] => []
  | (key, v) :: rest =>
    (if key = "db/id" then []
     else
       match v with
       | .multi vs => vs.map fun x => Assert id (.str key) x
       | .single x => [Assert id (.str key) x]) ++ entityDataFanOut id rest

/-- `EntityData.Assertions`, in core state. -/
def entityDataAssertionsCore (sto : BadgerStore) (cache : IdentCache)
    (gensym : Nat) (ed : EntityData) :
    (IdentCache × Nat) × Except Err (List Assertion) :=
  match getIdentifierCore sto cache gensym ed with
  | (s, .error e) => (s, .error e)
  | (s, .ok id) => (s, .ok (entityDataFanOut id ed))

/-- `store.Assertable`: the two supported shapes. -/
inductive Assertable where
  | assertion (a : Assertion)
  | entityData (ed : EntityData)

/-- The expansion loop at the top of `Connection.Assert`, in core state:
flatten every assertable via its `Assertions` method, failing fast on
expansion errors. -/
def assertableExpandCore (sto : BadgerStore) (cache : IdentCache) (gensym : Nat) :
    List Assertable → (IdentCache × Nat) × Except Err (List Assertion)
  | [] => ((cache, gensym), .ok [])
  | .assertion a :: rest =>
    match assertableExpandCore sto cache gensym rest with
    | (s, .error e) => (s, .error e)
    | (s, .ok xs) => (s, .ok (a :: xs))
  | .entityData ed :: rest =>
    match entityDataAssertionsCore sto cache gensym ed with
    | ((c, g), .error e) => ((c, g), .error e)
    | ((c, g), .ok xs) =>
      match assertableExpandCore sto c g rest with
      | (s, .error e) => (s, .error e)
      | (s, .ok ys) => (s, .ok (xs ++ ys))

/-- The expansion loop over the connection: it reads the backend and touches
only the ident cache and the TempID supply. -/
def assertableExpand (conn : Connection) (assertables : List Assertable) :
    Connection × Except Err (List Assertion) :=
  match assertableExpandCore conn.sto conn.identCache conn.gensym assertables with
  | ((cache', gensym'), r) =>
    ({ conn with identCache := cache', gensym := gensym' }, r)

/-! ## The transaction resolver (`Connection.Assert`). -/

/-- The `TempID → ID` table; association list in insertion order (the Go map
iteration order of the allocation loop is arbitrary — see the module
conventions). -/
abbrev TempIDs := List (String × ID)

/-- An entity reference after the resolution pass (strings have been replaced
by IDs in place). -/
inductive PEID where
  | id (i : ID)
  | tempid (symbol : String)
deriving DecidableEq, Repr

/-- An assertion value after coercion: a resolved value, or a tempID retained
in place (to be substituted in the materialization pass). -/
inductive RVal where
  | val (v : Val)
  | tempid (symbol : String)
deriving DecidableEq, Repr

/-- An assertion after the resolution pass. -/
structure PAssertion where
  entityID : PEID
  attr : ID
  value : RVal
  mode : Nat
deriving DecidableEq, Repr

/-- The wrap-around of Go's `int64(v)` conversion applied to a `uint64`. -/
def int64wrap (n : Int) : Int := (n + 2 ^ 63) % 2 ^ 64 - 2 ^ 63

/-- Truncation of a unix-seconds instant to UTC midnight (the `Date`
coercion's `t.UTC().Truncate(24 * time.Hour)`). -/
def dateTrunc (n : Int) : Int := n - n % 86400

/-- `isIDConflict` (closure in `Connection.Assert`): the symbol already
resolved to a different non-sentinel ID. -/
def isIDConflict (tempIDs : TempIDs) (symbol : String) (newID : ID) : Bool :=
  match alGet tempIDs symbol with
  | some resolvedID => resolvedID ≠ unresolvedEntityID && resolvedID ≠ newID
  | none => false

/-- Value coercion for a `db.type/ref` attribute, including the special case
that allocates and immediately stores a fresh ident when the attribute is
`db/ident` and the value's resolution reports `ErrNoSuchIdent`. -/
def coerceRef (conn : Connection) (tempIDs : TempIDs) (attrIdent : Ident)
    (v : AVal) : (Connection × TempIDs) × Except Err RVal :=
  -- A plain string is first wrapped as `Ident{Name: s}`.
  let v := match v with
    | .str s => AVal.ident 0 s
    | other => other
  match v with
  | .id i => ((conn, tempIDs), .ok (.val (.id i)))
  | .tempid s =>
    let tempIDs' :=
      match alGet tempIDs s with
      | some _ => tempIDs
      | none => alPut tempIDs s unresolvedEntityID
    ((conn, tempIDs'), .ok (.tempid s))
  | .ident id name =>
    match resolverResolve conn (.ident id name) with
    | (c, .ok rid) => ((c, tempIDs), .ok (.val (.id rid)))
    | (c, .error .noSuchIdent) =>
      if attrIdent.id = IDIdent then
        -- Allocate a fresh ID (taken as returned — no zero check here) and
        -- store the new ident immediately so later resolutions see it.
        let (sto', nid) := nextID c.sto
        let sto'' := storeIdent sto' ⟨nid, name⟩
        (({ c with sto := sto'' }, tempIDs), .ok (.val (.id nid)))
      else ((c, tempIDs), .error .noSuchIdent)
    | (c, .error e) => ((c, tempIDs), .error e)
  | .lookup attrName value =>
    match lookupResolve conn attrName value with
    | (c, .ok rid) => ((c, tempIDs), .ok (.val (.id rid)))
    | (c, .error .noSuchIdent) =>
      if attrIdent.id = IDIdent then
        -- The `assertion.value.(Ident)` cast in the special case fails when
        -- the value is not an `Ident`.
        ((c, tempIDs), .error (.goPanic "value is not an Ident"))
      else ((c, tempIDs), .error .noSuchIdent)
    | (c, .error e) => ((c, tempIDs), .error e)
  | _ => ((conn, tempIDs), .error (.refNotResolvable attrIdent.name))

/-- Value coercion by the attribute's declared type (`Connection.Assert`,
pass 3).  Each Go type-switch branch is mirrored; `name` is the attribute
name used in error messages. -/
def coerceValue (conn : Connection) (tempIDs : TempIDs) (attrIdent : Ident)
    (valueTypeID : ID) (v : AVal) : (Connection × TempIDs) × Except Err RVal :=
  let name := attrIdent.name
  let pure' (r : Except Err RVal) : (Connection × TempIDs) × Except Err RVal :=
    ((conn, tempIDs), r)
  if valueTypeID = IDTypeRef then
    coerceRef conn tempIDs attrIdent v
  else if valueTypeID = IDTypeString then
    match v with
    | .str s => pure' (.ok (.val (.str s)))
    | .bytes bs => pure' (.ok (.val (.str (String.mk (bs.map Char.ofNat)))))
    | _ => pure' (.error (.notAssignable "string" name))
  else if valueTypeID = IDTypeInt64 then
    match v with
    | .int64 n => pure' (.ok (.val (.int64 n)))
    | .uint64 n => pure' (.ok (.val (.int64 (int64wrap n))))
    | .int n => pure' (.ok (.val (.int64 n)))
    | .uint n => pure' (.ok (.val (.int64 (int64wrap n))))
    | .int32 n => pure' (.ok (.val (.int64 n)))
    | .uint32 n => pure' (.ok (.val (.int64 n)))
    | .int16 n => pure' (.ok (.val (.int64 n)))
    | .uint16 n => pure' (.ok (.val (.int64 n)))
    | .int8 n => pure' (.ok (.val (.int64 n)))
    | .uint8 n => pure' (.ok (.val (.int64 n)))
    | _ => pure' (.error (.notAssignable "int64" name))
  else if valueTypeID = IDTypeInt32 then
    match v with
    | .int64 n =>
      if n > 2147483647 ∨ n < -2147483648 then pure' (.error (.outOfRange "int32" name))
      else pure' (.ok (.val (.int32 n)))
    | .uint64 n =>
      if n > 2147483647 then pure' (.error (.outOfRange "int32" name))
      else pure' (.ok (.val (.int32 n)))
    | .int n =>
      if n > 2147483647 ∨ n < -2147483648 then pure' (.error (.outOfRange "int32" name))
      else pure' (.ok (.val (.int32 n)))
    | .uint n =>
      if n > 2147483647 then pure' (.error (.outOfRange "int32" name))
      else pure' (.ok (.val (.int32 n)))
    | .int32 n => pure' (.ok (.val (.int32 n)))
    | .uint32 n =>
      if n > 2147483647 then pure' (.error (.outOfRange "int32" name))
      else pure' (.ok (.val (.int32 n)))
    | .int16 n => pure' (.ok (.val (.int32 n)))
    | .uint16 n => pure' (.ok (.val (.int32 n)))
    | .int8 n => pure' (.ok (.val (.int32 n)))
    | .uint8 n => pure' (.ok (.val (.int32 n)))
    | _ => pure' (.error (.notAssignable "int32" name))
  else if valueTypeID = IDTypeInt16 then
    match v with
    | .int64 n =>
      if n > 32767 ∨ n < -32768 then pure' (.error (.outOfRange "int16" name))
      else pure' (.ok (.val (.int16 n)))
    | .uint64 n =>
      if n > 32767 then pure' (.error (.outOfRange "int16" name))
      else pure' (.ok (.val (.int16 n)))
    | .int n =>
      if n > 32767 ∨ n < -32768 then pure' (.error (.outOfRange "int16" name))
      else pure' (.ok (.val (.int16 n)))
    | .uint n =>
      if n > 32767 then pure' (.error (.outOfRange "int16" name))
      else pure' (.ok (.val (.int16 n)))
    | .int32 n =>
      if n > 32767 ∨ n < -32768 then pure' (.error (.outOfRange "int16" name))
      else pure' (.ok (.val (.int16 n)))
    | .uint32 n =>
      if n > 32767 then pure' (.error (.outOfRange "int16" name))
      else pure' (.ok (.val (.int16 n)))
    | .int16 n => pure' (.ok (.val (.int16 n)))
    | .uint16 n =>
      if n > 32767 then pure' (.error (.outOfRange "int16" name))
      else pure' (.ok (.val (.int16 n)))
    | .int8 n => pure' (.ok (.val (.int16 n)))
    | .uint8 n => pure' (.ok (.val (.int16 n)))
    | _ => pure' (.error (.notAssignable "int16" name))
  else if valueTypeID = IDTypeInt8 then
    match v with
    | .int64 n =>
      if n > 127 ∨ n < -128 then pure' (.error (.outOfRange "int8" name))
      else pure' (.ok (.val (.int8 n)))
    | .uint64 n =>
      if n > 127 then pure' (.error (.outOfRange "int8" name))
      else pure' (.ok (.val (.int8 n)))
    | .int n =>
      if n > 127 ∨ n < -128 then pure' (.error (.outOfRange "int8" name))
      else pure' (.ok (.val (.int8 n)))
    | .uint n =>
      if n > 127 then pure' (.error (.outOfRange "int8" name))
      else pure' (.ok (.val (.int8 n)))
    | .int32 n =>
      if n > 127 ∨ n < -128 then pure' (.error (.outOfRange "int8" name))
      else pure' (.ok (.val (.int8 n)))
    | .uint32 n =>
      if n > 127 then pure' (.error (.outOfRange "int8" name))
      else pure' (.ok (.val (.int8 n)))
    | .int16 n =>
      if n > 127 ∨ n < -128 then pure' (.error (.outOfRange "int8" name))
      else pure' (.ok (.val (.int8 n)))
    | .uint16 n =>
      if n > 127 then pure' (.error (.outOfRange "int8" name))
      else pure' (.ok (.val (.int8 n)))
    | .int8 n => pure' (.ok (.val (.int8 n)))
    | .uint8 n =>
      if n > 127 then pure' (.error (.outOfRange "int8" name))
      else pure' (.ok (.val (.int8 n)))
    | _ => pure' (.error (.notAssignable "int8" name))
  else if valueTypeID = IDTypeBoolean then
    match v with
    | .bool b => pure' (.ok (.val (.bool b)))
    | _ => pure' (.error (.notAssignable "boolean" name))
  else if valueTypeID = IDTypeFloat64 ∨ valueTypeID = IDTypeFloat32 then
    pure' (.error (.unmodelled "float coercion"))
  else if valueTypeID = IDTypeTimestamp then
    match v with
    | .time t => pure' (.ok (.val (.time t)))
    | .int64 n => pure' (.ok (.val (.time n)))
    | .uint64 n => pure' (.ok (.val (.time (int64wrap n))))
    | .int n => pure' (.ok (.val (.time n)))
    | .uint n => pure' (.ok (.val (.time (int64wrap n))))
    | .int32 n => pure' (.ok (.val (.time n)))
    | .uint32 n => pure' (.ok (.val (.time n)))
    | .int16 n => pure' (.ok (.val (.time n)))
    | .uint16 n => pure' (.ok (.val (.time n)))
    | .int8 n => pure' (.ok (.val (.time n)))
    | .uint8 n => pure' (.ok (.val (.time n)))
    | .str _ => pure' (.error (.unmodelled "RFC3339 parse"))
    | _ => pure' (.error (.notAssignable "timestamp" name))
  else if valueTypeID = IDTypeDate then
    match v with
    | .time t => pure' (.ok (.val (.time (dateTrunc t))))
    | .int64 n => pure' (.ok (.val (.time (dateTrunc n))))
    | .uint64 n => pure' (.ok (.val (.time (dateTrunc (int64wrap n)))))
    | .int n => pure' (.ok (.val (.time (dateTrunc n))))
    | .uint n => pure' (.ok (.val (.time (dateTrunc (int64wrap n)))))
    | .int32 n => pure' (.ok (.val (.time (dateTrunc n))))
    | .uint32 n => pure' (.ok (.val (.time (dateTrunc n))))
    | .int16 n => pure' (.ok (.val (.time (dateTrunc n))))
    | .uint16 n => pure' (.ok (.val (.time (dateTrunc n))))
    | .int8 n => pure' (.ok (.val (.time (dateTrunc n))))
    | .uint8 n => pure' (.ok (.val (.time (dateTrunc n))))
    | .str _ => pure' (.error (.unmodelled "date parse"))
    | _ => pure' (.error (.notAssignable "date" name))
  else if valueTypeID = IDTypeBinary then
    match v with
    | .bytes bs => pure' (.ok (.val (.bytes bs)))
    | .str s => pure' (.ok (.val (.bytes (s.data.map Char.toNat))))
    | _ => pure' (.error (.notAssignable "binary" name))
  else if valueTypeID = IDTypeDecimal then
    pure' (.error (.goPanic "TODO: decimal type not implemented"))
  else if valueTypeID = IDTypeComposite then
    pure' (.error (.goPanic "TODO: composite type not implemented"))
  else if valueTypeID = IDTypeUUID ∨ valueTypeID = IDTypeULID then
    pure' (.error (.unmodelled "uuid/ulid coercion"))
  else
    pure' (.error (.goPanic "unhandled attribute type"))

/-- Entity-ID resolution for one assertion (`Connection.Assert`, the
ID-resolution section of the first pass).  `schemaEntity` is the attribute's
schema entity fetched earlier in the same loop iteration. -/
def resolveEntityID (conn : Connection) (tempIDs : TempIDs) (eref : ERef)
    (attrIdent : Ident) (schemaEntity : Entity) (rval : RVal) :
    (Connection × TempIDs) × Except Err PEID :=
  match eref with
  | .id i => ((conn, tempIDs), .ok (.id i))
  | .str name =>
    match resolveIdent conn (.str name) with
    | (c, .error e) => ((c, tempIDs), .error e)
    | (c, .ok ident) => ((c, tempIDs), .ok (.id ident.id))
  | .invalid _ => ((conn, tempIDs), .error (.goPanic "unhandled entityID type"))
  | .tempid symbol =>
    if attrIdent.id = IDID then
      -- ID was specified as db/id: the value must type-assert to an `ID`.
      match rval with
      | .val (.id i) =>
        match scanEAVT conn.sto attrIdent.id (some i) with
        | .error e => ((conn, tempIDs), .error e)
        | .ok facts =>
          if facts.isEmpty then ((conn, tempIDs), .error (.noEntityWithID i))
          else if isIDConflict tempIDs symbol i then
            ((conn, tempIDs), .error .conflict)
          else ((conn, alPut tempIDs symbol i), .ok (.tempid symbol))
      | _ => ((conn, tempIDs), .error .notAnID)
    else if attrIdent.id = IDIdent then
      -- The ID was allocated (or found) during value coercion.
      match rval with
      | .val (.id i) =>
        if isIDConflict tempIDs symbol i then
          ((conn, tempIDs), .error .conflict)
        else ((conn, alPut tempIDs symbol i), .ok (.tempid symbol))
      | _ => ((conn, tempIDs), .error (.goPanic "value ID cast"))
    else
      -- A unique attribute resolves the tempID via an AVET point lookup.
      let uniqueStep : (Connection × TempIDs) × Except Err Unit :=
        match entityGet conn schemaEntity (.id IDUnique) with
        | (c, .error .propertyNotFound) => ((c, tempIDs), .ok ())
        | (c, .error e) => ((c, tempIDs), .error e)
        | (c, .ok (.scalar (some (.bool false)))) => ((c, tempIDs), .ok ())
        -- A nil stored value fails Go's `isUnique != nil` test: skip.
        | (c, .ok (.scalar none)) => ((c, tempIDs), .ok ())
        | (c, .ok (.scalar (some (.bool true)))) =>
          match rval with
          | .val v =>
            match lookupResolve c attrIdent.name v with
            | (c', .ok i) =>
              if isIDConflict tempIDs symbol i then ((c', tempIDs), .error .conflict)
              else ((c', alPut tempIDs symbol i), .ok ())
            | (c', .error .noSuchEntity) => ((c', tempIDs), .ok ())
            | (c', .error e) => ((c', tempIDs), .error e)
          | .tempid _ =>
            -- `ScanAVET` gob-encodes the lookup value; a `tempID` value (no
            -- exported fields) fails to encode.
            ((c, tempIDs), .error .encoding)
        | (c, .ok _) => ((c, tempIDs), .error (.goPanic "isUnique bool cast"))
      match uniqueStep with
      | ((c, t), .error e) => ((c, t), .error e)
      | ((c, t), .ok ()) =>
        -- Happy path: ensure an entry exists with the unresolved sentinel.
        let t' := match alGet t symbol with
          | some _ => t
          | none => alPut t symbol unresolvedEntityID
        ((c, t'), .ok (.tempid symbol))

/-- The per-assertion resolution pass (`Connection.Assert`, first pass):
attribute resolution, schema fetch, value coercion, entity-ID resolution —
sequential over the assertions, failing fast. -/
def processAssertions (conn : Connection) (tempIDs : TempIDs) :
    List Assertion → (Connection × TempIDs) × Except Err (List PAssertion)
  | [] => ((conn, tempIDs), .ok [])
  | a :: rest =>
    let attrInput : IdentInput :=
      match a.attr with
      | .str s => .str s
      | .ident id name => .ident id name
      | .id i => .id i
      | .invalid _ => .other "invalid attribute"
    match resolveIdent conn attrInput with
    | (c, .error e) => ((c, tempIDs), .error e)
    | (c, .ok attrIdent) =>
      match getSchemaEntity c attrIdent.id with
      | (c1, .error e) => ((c1, tempIDs), .error e)
      | (c1, .ok schemaEntity) =>
        let typeStep : Connection × Except Err ID :=
          match entityGet c1 schemaEntity (.id IDType) with
          | (c2, .ok (.scalar (some (.id t)))) => (c2, .ok t)
          | (c2, .ok _) => (c2, .error (.goPanic "valueType ID cast"))
          | (c2, .error .propertyNotFound) =>
            (c2, .error (.notSchemaEntity attrIdent.id))
          | (c2, .error e) => (c2, .error e)
        match typeStep with
        | (c2, .error e) => ((c2, tempIDs), .error e)
        | (c2, .ok valueTypeID) =>
          match coerceValue c2 tempIDs attrIdent valueTypeID a.value with
          | ((c3, t3), .error e) => ((c3, t3), .error e)
          | ((c3, t3), .ok rval) =>
            match resolveEntityID c3 t3 a.entityID attrIdent schemaEntity rval with
            | ((c4, t4), .error e) => ((c4, t4), .error e)
            | ((c4, t4), .ok peid) =>
              match processAssertions c4 t4 rest with
              | ((c5, t5), .error e) => ((c5, t5), .error e)
              | ((c5, t5), .ok pas) =>
                ((c5, t5), .ok (⟨peid, attrIdent.id, rval, a.mode⟩ :: pas))

/-- The allocation pass (`Connection.Assert`, "Allocate ids for tempIDs"):
every symbol still bound to the unresolved sentinel receives the next ID from
the ID manager — taken as returned, with no retry on zero. -/
def allocateTempIDs (sto : BadgerStore) : TempIDs → BadgerStore × TempIDs
  | [] => (sto, [])
  | (symbol, id) :: rest =>
    if id ≠ unresolvedEntityID then
      let (sto', rest') := allocateTempIDs sto rest
      (sto', (symbol, id) :: rest')
    else
      let (sto', newID) := nextID sto
      let (sto'', rest') := allocateTempIDs sto' rest
      (sto'', (symbol, newID) :: rest')

/-- The materialization pass (`Connection.Assert`, second pass): substitute
tempIDs in entity and value positions, stamp every fact with the transaction
ID bound to `"txid"`. -/
def materialize (tempIDs : TempIDs) (pas : List PAssertion) :
    List ResolvedAssertion :=
  pas.map fun pa =>
    { fact :=
        { entityID :=
            match pa.entityID with
            | .id i => i
            | .tempid s => (alGet tempIDs s).getD 0
          attr := pa.attr
          value := some (match pa.value with
            | .val v => v
            | .tempid s => .id ((alGet tempIDs s).getD 0))
          tx := (alGet tempIDs "txid").getD 0 }
      mode := pa.mode }

/-- `Connection.Assert` result (`AssertResult`; the `DB` basis field is a
placeholder in the source and is omitted). -/
structure AssertResult where
  data : List ResolvedAssertion
  tempIDs : TempIDs
deriving DecidableEq, Repr

/-- `Connection.Assert`: expansion, validation, transaction-fact injection
(the injected assertion's mode field is left at its zero value,
`AssertModeInvalid`), the resolution pass, tempID allocation, materialization
and the atomic index write. -/
def connectionAssert (conn : Connection) (assertables : List Assertable) :
    Connection × Except Err AssertResult :=
  match assertableExpand conn assertables with
  | (c, .error e) => (c, .error e)
  | (c, .ok assertions) =>
    let errs := assertions.filterMap (fun a => a.err)
    if errs.isEmpty then
      let tempIDs : TempIDs := [("txid", unresolvedEntityID)]
      let txAssertion : Assertion :=
        { entityID := .tempid "txid", attr := .str "db.tx/commitTime",
          value := .uint64 c.now, mode := AssertModeInvalid, err := none }
      let assertions := assertions ++ [txAssertion]
      match processAssertions c tempIDs assertions with
      | ((c1, _), .error e) => (c1, .error e)
      | ((c1, tempIDs1), .ok pas) =>
        let (sto1, tempIDs2) := allocateTempIDs c1.sto tempIDs1
        let c2 := { c1 with sto := sto1 }
        let resolved := materialize tempIDs2 pas
        match indexerWrite c2.sto resolved with
        | .error e => (c2, .error e)
        | .ok sto2 => ({ c2 with sto := sto2 }, .ok ⟨resolved, tempIDs2⟩)
    else (c, .error (.invalidAssertions errs))

/-! ## Bootstrap (`Connection.InitializeDB`). -/

/-- The system schema entity frames of `InitializeDB`, in source order (each
Go map literal is rendered as an association list in literal order; the
bootstrap only reads them by ranging, and the single `IDIdent` key determines
the entity ID). -/
def bootstrapSchemaEntities : List (List (ID × Val)) :=
  [ [ (IDIdent, .id IDID), (IDType, .id IDTypeInt64),
      (IDCardinality, .id IDCardinalityOne), (IDUnique, .bool true),
      (IDDoc, .str "Entity ID") ],
    [ (IDIdent, .id IDIdent), (IDType, .id IDTypeRef),
      (IDCardinality, .id IDCardinalityOne), (IDUnique, .bool true),
      (IDDoc, .str "Global ident. Should be applied to schema entities and global values like enum variants.") ],
    [ (IDIdent, .id IDType), (IDType, .id IDTypeRef),
      (IDCardinality, .id IDCardinalityOne),
      (IDDoc, .str "Schema entity type") ],
    [ (IDIdent, .id IDCardinality), (IDType, .id IDTypeRef),
      (IDCardinality, .id IDCardinalityOne),
      (IDDoc, .str "Cardinality of an attribute. Enumerated value: db.cardinality/one or db.cardinality/many") ],
    [ (IDIdent, .id IDUnique), (IDType, .id IDTypeBoolean),
      (IDCardinality, .id IDCardinalityOne),
      (IDDoc, .str "Whether an attribute is unique. If true, only one entity may have a given value for the attribute.") ],
    [ (IDIdent, .id IDIndexed), (IDType, .id IDTypeBoolean),
      (IDCardinality, .id IDCardinalityOne),
      (IDDoc, .str "Whether an attribute is indexed. If true, the attribute will be indexed in the AVET index.") ],
    [ (IDIdent, .id IDDoc), (IDType, .id IDTypeString),
      (IDCardinality, .id IDCardinalityOne),
      (IDDoc, .str "Documentation for an attribute or entity.") ],
    [ (IDIdent, .id IDTxCommitTime), (IDType, .id IDTypeTimestamp),
      (IDCardinality, .id IDCardinalityOne),
      (IDDoc, .str "Timestamp of the transaction commit.") ],
    [ (IDIdent, .id IDCardinalityOne) ],
    [ (IDIdent, .id IDCardinalityMany) ],
    [ (IDIdent, .id IDTypeString) ],
    [ (IDIdent, .id IDTypeBoolean) ],
    [ (IDIdent, .id IDTypeInt64) ],
    [ (IDIdent, .id IDTypeInt32) ],
    [ (IDIdent, .id IDTypeInt16) ],
    [ (IDIdent, .id IDTypeInt8) ],
    [ (IDIdent, .id IDTypeFloat64) ],
    [ (IDIdent, .id IDTypeFloat32) ],
    [ (IDIdent, .id IDTypeDecimal) ],
    [ (IDIdent, .id IDTypeTimestamp) ],
    [ (IDIdent, .id IDTypeDate) ],
    [ (IDIdent, .id IDTypeRef) ],
    [ (IDIdent, .id IDTypeBinary) ],
    [ (IDIdent, .id IDTypeUUID) ],
    [ (IDIdent, .id IDTypeULID) ],
    [ (IDIdent, .id IDTypeComposite) ] ]

/-- The entity ID of a bootstrap frame: the value of its `IDIdent` key
(asserted to be an `ID`). -/
def bootstrapFrameEID (frame : List (ID × Val)) : ID :=
  match alGet frame IDIdent with
  | some (.id eid) => eid
  | _ => 0

/-- The resolved assertions of one bootstrap frame. -/
def bootstrapFrameAssertions (txID : ID) (frame : List (ID × Val)) :
    List ResolvedAssertion :=
  let eid := bootstrapFrameEID frame
  frame.map fun p =>
    { fact := { entityID := eid, attr := p.1, value := some p.2, tx := txID }
      mode := AssertModeAddition }

/-- `Connection.InitializeDB`: allocate a transaction ID (retrying a zero
result — the sequence is strictly increasing, so at most one retry is ever
needed), emit the commit-time fact and the system schema as raw
`ResolvedAssertion`s, and write them. -/
def initializeDB (conn : Connection) : Connection × Except Err Unit :=
  let (sto, first) := nextID conn.sto
  let (sto, txID) := if first = 0 then nextID sto else (sto, first)
  let txAssertion : ResolvedAssertion :=
    { fact := { entityID := txID, attr := IDTxCommitTime,
                value := some (.uint64 conn.now), tx := txID }
      mode := AssertModeAddition }
  let assertions :=
    txAssertion :: (bootstrapSchemaEntities.map (bootstrapFrameAssertions txID)).flatten
  match indexerWrite sto assertions with
  | .error e => ({ conn with sto := sto }, .error e)
  | .ok sto' => ({ conn with sto := sto' }, .ok ())

/-! ## Concrete scenario states

A fresh in-memory connection is bootstrapped and a user schema is installed
through the embedded pipeline itself; the claim theorems below run against
these states.  The user schema mirrors the one the package's own tests
install (`newTestConn`), extended with narrow integer attributes.

Allocated IDs (all produced by the pipeline, verified by the theorems):
`person/email` = 2, `person/firstName` = 3, `person/lastName` = 4,
`person/ssn` = 5, `person/pets` = 6, `test/i16` = 7, `test/i8` = 8,
`test/i32` = 9; the schema transaction is Tx 10. -/

/-- A bootstrapped connection over a fresh in-memory store
(`NewConnection` + `InitializeDB`), at a fixed wall clock. -/
def connB : Connection := (initializeDB (newConnection 1700000000)).1

/-- The user schema transaction. -/
def schemaTx : List Assertable :=
  [ .entityData [("db/ident", .single (.str "person/email")),
                 ("db/type", .single (.str "db.type/string")),
                 ("db/unique", .single (.bool true)),
                 ("db/cardinality", .single (.str "db.cardinality/one"))],
    .entityData [("db/ident", .single (.str "person/firstName")),
                 ("db/type", .single (.str "db.type/string")),
                 ("db/cardinality", .single (.str "db.cardinality/one"))],
    .entityData [("db/ident", .single (.str "person/lastName")),
                 ("db/type", .single (.str "db.type/string")),
                 ("db/cardinality", .single (.str "db.cardinality/one"))],
    .entityData [("db/ident", .single (.str "person/ssn")),
                 ("db/type", .single (.str "db.type/string")),
                 ("db/unique", .single (.bool true)),
                 ("db/cardinality", .single (.str "db.cardinality/one"))],
    .entityData [("db/ident", .single (.str "person/pets")),
                 ("db/type", .single (.str "db.type/ref")),
                 ("db/cardinality", .single (.str "db.cardinality/many"))],
    .entityData [("db/ident", .single (.str "test/i16")),
                 ("db/type", .single (.str "db.type/int16")),
                 ("db/cardinality", .single (.str "db.cardinality/one"))],
    .entityData [("db/ident", .single (.str "test/i8")),
                 ("db/type", .single (.str "db.type/int8")),
                 ("db/cardinality", .single (.str "db.cardinality/one"))],
    .entityData [("db/ident", .single (.str "test/i32")),
                 ("db/type", .single (.str "db.type/int32")),
                 ("db/cardinality", .single (.str "db.cardinality/one"))] ]

/-- The connection after installing the user schema. -/
def connS : Connection := (connectionAssert connB schemaTx).1

/-- Transaction 1 of the upsert scenario: `{person/email: "a@x",
person/firstName: "Ann"}`. -/
def upsertTx1 : List Assertable :=
  [ .entityData [("person/email", .single (.str "a@x")),
                 ("person/firstName", .single (.str "Ann"))] ]

/-- The connection after `upsertTx1` (the entity is allocated ID 12,
the transaction Tx 11). -/
def connU1 : Connection := (connectionAssert connS upsertTx1).1

/-- Transaction 2 of the upsert scenario: `{person/email: "a@x",
person/lastName: "Lee"}`. -/
def upsertTx2 : List Assertable :=
  [ .entityData [("person/email", .single (.str "a@x")),
                 ("person/lastName", .single (.str "Lee"))] ]

/-- The connection after `upsertTx2` (Tx 13; the unique upsert resolves the
entity to ID 12 again). -/
def connU2 : Connection := (connectionAssert connU1 upsertTx2).1

/-! ## Claim C6 — system ident resolution. -/

/-- C6: after bootstrapping an empty store,
`ResolveIdents(["db/ident", "db/type", "db/cardinality"])` succeeds and
returns exactly `[(-2, "db/ident"), (-3, "db/type"), (-5, "db/cardinality")]`
in input order, leaving the connection unchanged (all three are ident-cache
hits). -/
theorem c6_system_ident_resolution :
    resolveIdents connB [.str "db/ident", .str "db/type", .str "db/cardinality"] =
      (connB, .ok [⟨-2, "db/ident"⟩, ⟨-3, "db/type"⟩, ⟨-5, "db/cardinality"⟩]) :=
  rfl

/-! ## Claim C7 — reserved namespace rejection. -/

/-- C7 counterexample: the input name `"db/ident"` starts with `"db/"` yet
`ResolveIdents` resolves it successfully from the preloaded ident cache — the
cache lookup precedes the reserved-namespace check, so resolution is not
rejected for every `"db/"`-prefixed name. -/
theorem c7_reserved_namespace_counterexample :
    resolveIdents connB [.str "db/ident"] = (connB, .ok [⟨-2, "db/ident"⟩]) :=
  rfl

/-- C7 (amended): for every input name starting with `"db/"` that misses the
ident cache, `ResolveIdents` rejects the whole call with the hard
reserved-namespace error, before any backend lookup or allocation. -/
theorem c7_reserved_namespace_uncached_rejected (conn : Connection)
    (name : String) (h1 : goHasPrefix name "db/" = true)
    (h2 : lookupByName conn.identCache name = none) :
    resolveIdents conn [.str name] = (conn, .error .reservedNamespace) := by
  have hcore : resolveIdentsCore conn.sto conn.identCache [.str name] =
      (conn.identCache, .error .reservedNamespace) := by
    simp [resolveIdentsCore, classifyIdentInputs, h1, h2]
  simp [resolveIdents, hcore]

/-- C7 witness: the amended theorem applied at the concrete uncached name
`"db/zzz"` on the bootstrapped connection. -/
theorem c7_reserved_namespace_uncached_rejected_witness :
    resolveIdents connB [.str "db/zzz"] = (connB, .error .reservedNamespace) :=
  c7_reserved_namespace_uncached_rejected connB "db/zzz" (by decide) (by rfl)

/-! ## Claim C10 — ident cache batch insertion stops at the first
duplicate. -/

/-- C10: if, after inserting the prefix `l1` of a batch, the next ident `d`
has an ID already present in the cache's ID index, `identCache.store` returns
at `d` — so neither `d` nor any ident after it is inserted, and the result is
exactly that of storing the prefix alone. -/
theorem c10_ident_cache_store_stops_at_duplicate (c : IdentCache)
    (l1 : List Ident) (d : Ident) (l2 : List Ident)
    (h : (alGet (identCacheStore c l1).identIdxID d.id).isSome = true) :
    identCacheStore c (l1 ++ d :: l2) = identCacheStore c l1 := by
  induction l1 generalizing c with
  | nil =>
    simp only [identCacheStore, List.nil_append] at h ⊢
    cases hd : alGet c.identIdxID d.id with
    | none => rw [hd] at h; simp at h
    | some idx => rfl
  | cons i l1 ih =>
    simp only [List.cons_append, identCacheStore] at h ⊢
    cases hi : alGet c.identIdxID i.id with
    | some idx => rfl
    | none =>
      rw [hi] at h
      exact ih (identCacheInsert c i) h

/-- C10 witness: storing `[(100, "a/b"), (-1, "x/y"), (101, "c/d")]` into the
preloaded cache (where ID -1 is already cached) inserts only `(100, "a/b")`:
the duplicate and the valid ident after it are both dropped. -/
theorem c10_ident_cache_store_stops_at_duplicate_witness :
    identCacheStore newIdentCache
        ([⟨100, "a/b"⟩] ++ ⟨-1, "x/y"⟩ :: [⟨101, "c/d"⟩]) =
      identCacheStore newIdentCache [⟨100, "a/b"⟩] :=
  c10_ident_cache_store_stops_at_duplicate newIdentCache
    [⟨100, "a/b"⟩] ⟨-1, "x/y"⟩ [⟨101, "c/d"⟩] rfl

/-! ## Claim C1 — unique upsert idempotence. -/

/-- C1: on the unique attribute `person/email` (ID 2), asserting
`{person/email: "a@x", person/firstName: "Ann"}` and then, in a later
transaction, `{person/email: "a@x", person/lastName: "Lee"}` yields a single
entity (ID 12) bearing all three facts; `lookup(person/email, "a@x")`
resolves to 12 after each of the two transactions, and the AVET index holds
exactly one entry for `(person/email, "a@x")`, so no second entity bears the
key. -/
theorem c1_unique_upsert_idempotence :
    (lookupResolve connU1 "person/email" (.str "a@x")).2 = .ok 12 ∧
    (lookupResolve connU2 "person/email" (.str "a@x")).2 = .ok 12 ∧
    (getEntity connU2 (.id 12)).2 =
      .ok ⟨12, 13, [(2, .scalar (some (.str "a@x"))),
                    (3, .scalar (some (.str "Ann"))),
                    (4, .scalar (some (.str "Lee")))]⟩ ∧
    (connU2.sto.avet.filter fun p => p.1 = (2, Val.str "a@x")).length = 1 :=
  ⟨rfl, rfl, rfl, rfl⟩

/-! ## Claim C2 — cardinality-many preservation. -/

/-- The cardinality-many transaction: three distinct ref tempIDs for
`person/pets` (ID 6) on one entity in a single transaction. -/
def petsTx : List Assertable :=
  [ .entityData [("person/pets",
      .multi [.tempid "p1", .tempid "p2", .tempid "p3"])] ]

/-- The connection after `petsTx` (the person is allocated ID 13, the pets
IDs 12, 14 and 15, the transaction Tx 11). -/
def connP : Connection := (connectionAssert connS petsTx).1

/-- C2 (divergence witness): the transaction materializes three distinct
addition facts `(13, person/pets, 12/14/15)`, but `writeEAVT` keys EAVT
entries by `(entity, attribute)` only, so the three writes overwrite one
another; the resulting snapshot's value for `person/pets` is the one-element
list `[15]` (the last written ref), not a three-element list containing each
input once. -/
theorem c2_cardinality_many_overwritten :
    (connectionAssert connS petsTx).2 =
      .ok ⟨[ ⟨⟨13, 6, some (.id 12), 11⟩, AssertModeAddition⟩,
             ⟨⟨13, 6, some (.id 14), 11⟩, AssertModeAddition⟩,
             ⟨⟨13, 6, some (.id 15), 11⟩, AssertModeAddition⟩,
             ⟨⟨11, -9, some (.time 1700000000), 11⟩, AssertModeInvalid⟩ ],
           [("txid", 11), ("p1", 12), ("tmp8", 13), ("p2", 14), ("p3", 15)]⟩ ∧
    (getEntity connP (.id 13)).2 =
      .ok ⟨13, 11, [(6, .listOf [some (.id 15)])]⟩ :=
  ⟨rfl, rfl⟩

/-! ## Claim C3 — conflict rule. -/

/-- A transaction that, per the specified Pass 4, would bind tempID `"u"`
to `person/email`'s schema-entity ID 2 via `db/ident` and then to entity 1
(the bootstrap transaction entity, which exists) via `db/id`, with an `ID`
value for `db/id`. -/
def conflictViaDbIdTx : List Assertable :=
  [ .assertion (Assert (.tempid "u") (.str "db/ident") (.str "person/email")),
    .assertion (Assert (.tempid "u") (.str "db/id") (.id 1)) ]

/-- As `conflictViaDbIdTx` but passing the `db/id` target as a Go `int64`. -/
def conflictViaDbIdInt64Tx : List Assertable :=
  [ .assertion (Assert (.tempid "u") (.str "db/ident") (.str "person/email")),
    .assertion (Assert (.tempid "u") (.str "db/id") (.int64 1)) ]

/-- A transaction binding one tempID to two different existing entities via
two unique attributes: `person/email = "a@x"` resolves to entity 12 and
`person/ssn = "s1"` to entity 14. -/
def conflictViaUniquesTx : List Assertable :=
  [ .entityData [("person/email", .single (.str "a@x")),
                 ("person/ssn", .single (.str "s1"))] ]

/-- The connection after additionally asserting `{person/ssn: "s1"}` on
`connU1`, creating a second entity (ID 14). -/
def connV : Connection :=
  (connectionAssert connU1 [ .entityData [("person/ssn", .single (.str "s1"))] ]).1

/-- C3: conflicting bindings through `db/ident` and unique-attribute lookup
do fail with `ErrConflict` (third conjunct), but a conflicting binding
involving `db/id` never reaches the conflict check: the `db/id` attribute is
bootstrapped with type `db.type/int64`, whose coercion switch has no case
for the `ID` dynamic type (first conjunct), and an integer-typed value later
fails the `assertion.value.(ID)` type assert (second conjunct) — so such a
transaction fails with a value error, not `ErrConflict`. -/
theorem c3_conflict_rule_divergence :
    (connectionAssert connS conflictViaDbIdTx).2 =
      .error (.notAssignable "int64" "db/id") ∧
    (connectionAssert connS conflictViaDbIdInt64Tx).2 = .error .notAnID ∧
    (connectionAssert connV conflictViaUniquesTx).2 = .error .conflict :=
  ⟨rfl, rfl, rfl⟩

/-! ## Claim C4 — scan mode filtering. -/

/-- A transaction retracting `person/firstName = "Ann"` from entity 12. -/
def retractTx : List Assertable :=
  [ .assertion (Retract (.id 12) (.str "person/firstName") (.str "Ann")) ]

/-- The connection after the retraction (its EAVT entry `(12, 3)` and AVET
entry `(3, "Ann")` now carry mode byte `Retraction`). -/
def connR : Connection := (connectionAssert connU1 retractTx).1

/-- C4 (divergence witness): after the retraction, the stored EAVT entry for
`(12, person/firstName)` has mode byte `Retraction` (first conjunct), yet
`ScanEAVT` of entity 12 still yields a fact for it — with `Tx` and `Value`
left zero/nil because only the decode was skipped, not the append (second
conjunct); likewise `ScanAVET` yields a fact with `EntityID` and `Tx` zero
for the retracted AVET entry (third conjunct).  Entries with non-Addition
modes are therefore not skipped: they appear in the produced fact
sequence. -/
theorem c4_scan_mode_not_skipped :
    alGet connR.sto.eavt (12, 3) =
      some (AssertModeRetraction, 13, .str "Ann") ∧
    scanEAVT connR.sto 12 none =
      .ok [⟨12, 2, some (.str "a@x"), 11⟩, ⟨12, 3, none, 0⟩] ∧
    scanAVET connR.sto 3 (.str "Ann") =
      .ok [⟨0, 3, some (.str "Ann"), 0⟩] :=
  ⟨rfl, rfl, rfl⟩

/-! ## Claim C5 — non-zero identifier invariant. -/

/-- The schema connection with the ID sequence at its fresh initial state,
whose first `Next()` yields 0 (as the Badger-backed `NextID` does on a fresh
sequence; the `IDManager` is an interface parameter of the connection and the
transactor must tolerate whatever it returns). -/
def connC5 : Connection := { connS with sto := { connS.sto with idSeq := 0 } }

/-- A plain transaction allocating one entity tempID. -/
def zedTx : List Assertable :=
  [ .entityData [("person/firstName", .single (.str "Zed"))] ]

/-- C5 (divergence witness): the tempID allocation loop takes `NextID`'s
result without retrying on zero, so with the sequence at 0 the `"txid"`
tempID is bound to 0 and the batch handed to `Indexer.Write` (returned
verbatim as `AssertResult.Data`) contains facts with `Tx = 0` — and the
transaction entity's commit-time fact has `EntityID = 0` as well; the write
succeeds and the zero-Tx entry lands in the EAVT index. -/
theorem c5_zero_id_not_retried :
    (connectionAssert connC5 zedTx).2 =
      .ok ⟨[ ⟨⟨1, 3, some (.str "Zed"), 0⟩, AssertModeAddition⟩,
             ⟨⟨0, -9, some (.time 1700000000), 0⟩, AssertModeInvalid⟩ ],
           [("txid", 0), ("tmp8", 1)]⟩ ∧
    alGet (connectionAssert connC5 zedTx).1.sto.eavt (1, 3) =
      some (AssertModeAddition, 0, .str "Zed") :=
  ⟨rfl, rfl⟩

/-! ## Claim C9 — integer range narrowing. -/

/-- C9: asserting `40000` on the `db.type/int16` attribute `test/i16` fails
the transaction with the out-of-range error, and likewise `300` at int8 and
`2147483648` at int32 (first three conjuncts, end-to-end through `Assert`);
in general, the coercion pass rejects any integer outside the target range
for each of the three narrowed widths (last three conjuncts). -/
theorem c9_int_range_narrowing :
    (connectionAssert connS
        [ .entityData [("test/i16", .single (.int 40000))] ]).2 =
      .error (.outOfRange "int16" "test/i16") ∧
    (connectionAssert connS
        [ .entityData [("test/i8", .single (.int 300))] ]).2 =
      .error (.outOfRange "int8" "test/i8") ∧
    (connectionAssert connS
        [ .entityData [("test/i32", .single (.int 2147483648))] ]).2 =
      .error (.outOfRange "int32" "test/i32") ∧
    (∀ (conn : Connection) (t : TempIDs) (a : Ident) (n : Int),
      n > 32767 ∨ n < -32768 →
      coerceValue conn t a IDTypeInt16 (.int n) =
        ((conn, t), .error (.outOfRange "int16" a.name))) ∧
    (∀ (conn : Connection) (t : TempIDs) (a : Ident) (n : Int),
      n > 127 ∨ n < -128 →
      coerceValue conn t a IDTypeInt8 (.int n) =
        ((conn, t), .error (.outOfRange "int8" a.name))) ∧
    (∀ (conn : Connection) (t : TempIDs) (a : Ident) (n : Int),
      n > 2147483647 ∨ n < -2147483648 →
      coerceValue conn t a IDTypeInt32 (.int n) =
        ((conn, t), .error (.outOfRange "int32" a.name))) := by
  refine ⟨rfl, rfl, rfl, ?_, ?_, ?_⟩ <;>
  · intro conn t a n h
    simp only [coerceValue, IDTypeRef, IDTypeString, IDTypeInt64, IDTypeInt32,
      IDTypeInt16, IDTypeInt8]
    norm_num
    intro h1 h2
    exfalso
    omega

/-- C9 witness: the general int16 conjunct applied at the concrete value
40000 (with the attribute ident of `test/i16`). -/
theorem c9_int_range_narrowing_witness :
    coerceValue connS [] ⟨7, "test/i16"⟩ IDTypeInt16 (.int 40000) =
      ((connS, []), .error (.outOfRange "int16" "test/i16")) :=
  c9_int_range_narrowing.2.2.2.1 connS [] ⟨7, "test/i16"⟩ 40000
    (Or.inl (by norm_num))

/-! ## Claim C8 — validation before write. -/

/-- Assertable expansion reads the backend but never writes it: the
connection it returns carries the original store. -/
theorem assertableExpand_sto (conn : Connection) (assertables : List Assertable) :
    (assertableExpand conn assertables).1.sto = conn.sto := by
  unfold assertableExpand
  cases assertableExpandCore conn.sto conn.identCache conn.gensym assertables with
  | mk s r => cases s; rfl

/-- C8: whenever expansion succeeds and at least one expanded assertion
carries a construction-validation error, `Connection.Assert` returns the
joined collection of all the per-assertion validation errors (in order) and
interacts with no index: the store of the returned connection is exactly the
input store, so no fact of the batch was written. -/
theorem c8_validation_before_write (conn : Connection) (items : List Assertable)
    (c : Connection) (asserts : List Assertion)
    (hexp : assertableExpand conn items = (c, .ok asserts))
    (hbad : asserts.filterMap (fun a => a.err) ≠ []) :
    connectionAssert conn items =
      (c, .error (.invalidAssertions (asserts.filterMap (fun a => a.err)))) ∧
    c.sto = conn.sto := by
  constructor
  · unfold connectionAssert
    rw [hexp]
    have hne : (asserts.filterMap (fun a => a.err)).isEmpty = false := by
      cases h : asserts.filterMap (fun a => a.err) with
      | nil => exact absurd h hbad
      | cons x xs => rfl
    simp [hne]
  · have h := assertableExpand_sto conn items
    rw [hexp] at h
    exact h

/-- C8 witness: a batch with an invalid entity-ID shape in one assertion and
an invalid attribute shape in another returns both validation errors joined,
in order, with the store untouched. -/
theorem c8_validation_before_write_witness :
    connectionAssert connS
        [ .assertion (Assert (.invalid "bool") (.str "person/email") (.str "x")),
          .assertion (Assert (.id 5) (.invalid "int") (.bool true)) ] =
      (connS, .error (.invalidAssertions
        [[.invalidEntityID], [.invalidAttribute]])) ∧
    connS.sto = connS.sto :=
  c8_validation_before_write connS
    [ .assertion (Assert (.invalid "bool") (.str "person/email") (.str "x")),
      .assertion (Assert (.id 5) (.invalid "int") (.bool true)) ]
    connS
    [ Assert (.invalid "bool") (.str "person/email") (.str "x"),
      Assert (.id 5) (.invalid "int") (.bool true) ]
    rfl (by decide)

end Canter
